import Mathlib

/-
Verification development for the Refyne data-cleansing service.
Shallow embedding of the core engine (profiler, cleaner, validator,
finance validators, customer profiler, audit logger) and of the upload
route, with theorems settling the specification claims.

Machine reals of the source are modelled as exact rationals; pandas and
Python standard-library primitives (string operations, quantile
interpolation, median, mode, JSON encoding/decoding, float parsing) are
modelled explicitly as Lean functions whose doc comments name the
library behaviour they capture.
-/

set_option maxRecDepth 8000
set_option allowUnsafeReducibility true
attribute [semireducible] Rat.add Rat.mul Rat.div Rat.inv Rat.sub Rat.neg Rat.blt

namespace Refyne

/-- Scalar cell value of a tabular dataset. `null` models pandas NaN/None/NaT;
`num` models numeric cells (int64/float64) as exact rationals; `date` models
datetime cells by an integer day encoding. -/
inductive Value where
  | null
  | str (s : String)
  | num (q : ℚ)
  | date (d : Int)
deriving DecidableEq, Repr, Inhabited

/-- Physical storage type of a column, as pandas dtypes: numeric
(int64/float64), datetime64, or object. -/
inductive Dtype where
  | numeric
  | datetime
  | object
deriving DecidableEq, Repr, Inhabited

/-- One column of a dataset: name, pandas dtype and cell values. -/
structure Col where
  name : String
  dtype : Dtype
  values : List Value
deriving DecidableEq, Repr, Inhabited

/-- A tabular dataset, column-major, as handled by the engine. -/
structure DataFrame where
  cols : List Col
deriving DecidableEq, Repr, Inhabited

/-- Whether a cell is missing (pandas `isna`). -/
def Value.isNull : Value → Bool
  | .null => true
  | _ => false

/-- Non-null values of a column (pandas `Series.dropna`). -/
def dropNA (l : List Value) : List Value :=
  l.filter (fun v => ¬ v.isNull)

/-- Keep-first-occurrence deduplication helper, accumulating already seen
elements; models pandas `drop_duplicates`/`duplicated` which mark a row as
duplicate when an earlier equal row exists. -/
def dropDupAux [DecidableEq α] (seen : List α) : List α → List α
  | [] => []
  | x :: xs => if x ∈ seen then dropDupAux seen xs else x :: dropDupAux (x :: seen) xs

/-- Keep-first-occurrence deduplication (pandas `drop_duplicates` order). -/
def dropDuplicates [DecidableEq α] (l : List α) : List α :=
  dropDupAux [] l

/-- Distinct non-null values of a column (pandas `Series.nunique`). -/
def nuniqueVals (l : List Value) : Nat :=
  (dropDuplicates (dropNA l)).length

/-- Lower-case a string, ASCII model of Python `str.lower`. -/
def strLower (s : String) : String :=
  (s.toList.map Char.toLower).asString

/-- Fuel-driven worker for `pyReplace`; one fuel unit per output step, so
the input length bounds the fuel needed. -/
def replaceFuel (pat rep : List Char) : Nat → List Char → List Char
  | _, [] => []
  | 0, l => l
  | fuel + 1, c :: rest =>
      if pat.isPrefixOf (c :: rest) ∧ ¬ pat.isEmpty then
        rep ++ replaceFuel pat rep fuel (rest.drop (pat.length - 1))
      else
        c :: replaceFuel pat rep fuel rest

/-- Replace every occurrence of `pat` by `rep`, model of Python
`str.replace` (left-to-right, non-overlapping). -/
def pyReplace (s pat rep : String) : String :=
  (replaceFuel pat.toList rep.toList s.toList.length s.toList).asString

/-- Strip leading and trailing whitespace, model of Python `str.strip()`. -/
def pyStrip (s : String) : String :=
  (((s.toList.dropWhile Char.isWhitespace).reverse.dropWhile Char.isWhitespace).reverse).asString

/-- Strip a given character from both ends, model of Python `str.strip(c)`. -/
def stripChar (c : Char) (s : String) : String :=
  (((s.toList.dropWhile (· = c)).reverse.dropWhile (· = c)).reverse).asString

/-- Whether `pat` occurs as a contiguous substring of `s` (Python `in`). -/
def containsSub (s pat : String) : Bool :=
  let ps := pat.toList
  let rec go : List Char → Bool
    | [] => ps.isPrefixOf []
    | c :: rest => ps.isPrefixOf (c :: rest) || go rest
  go s.toList

/-- Decimal digit expansion of the fractional part `0 ≤ q < 1`, with fuel
bounding the number of emitted digits; part of the model of Python
`str(float)` rendering. -/
def fracDigits : Nat → ℚ → String
  | 0, _ => ""
  | _, 0 => ""
  | fuel + 1, q =>
      let q10 := q * 10
      let d := q10.floor
      (toString d) ++ fracDigits fuel (q10 - (d : ℚ))

/-- Render a nonnegative rational in Python float `str` style. -/
def pyFloatReprNonneg (q : ℚ) : String :=
  let ip := q.floor
  let fr := q - (ip : ℚ)
  if fr = 0 then toString ip ++ ".0"
  else toString ip ++ "." ++ fracDigits 17 fr

/-- Render a rational as Python renders a float with `str` (integral values
get a trailing `.0`; finite decimal expansions are emitted exactly, with a
17-digit cut-off modelling double precision). -/
def pyFloatRepr (q : ℚ) : String :=
  if q < 0 then "-" ++ pyFloatReprNonneg (-q) else pyFloatReprNonneg q

/-- Render a cell as Python `str()` does when a Series is cast with
`astype(str)`: NaN renders as `"nan"`, strings are unchanged, numbers render
as floats. -/
def pyStr : Value → String
  | .null => "nan"
  | .str s => s
  | .num q => pyFloatRepr q
  | .date d => toString d

/-- Python `repr` of a list of strings, e.g. `['a', 'b']`; used in
f-string issue messages. -/
def pyListRepr (l : List String) : String :=
  "[" ++ String.intercalate ", " (l.map (fun s => "'" ++ s ++ "'")) ++ "]"

/-- Format a rational to one decimal place, model of the Python format
specifier `:.1f` (round-half-even on the exact value). -/
def roundHalfEvenQ (x : ℚ) : Int :=
  let f := x.floor
  let r := x - (f : ℚ)
  if r < 1/2 then f
  else if 1/2 < r then f + 1
  else if f % 2 = 0 then f else f + 1

/-- Render a nonnegative rational with exactly one decimal digit (`:.1f`). -/
def fmt1 (q : ℚ) : String :=
  let r := roundHalfEvenQ (q * 10)
  toString (r / 10) ++ "." ++ toString (r % 10)

/-- Number of rows of a frame (pandas `len(df)`), read off the first column. -/
def DataFrame.nRows (df : DataFrame) : Nat :=
  match df.cols with
  | [] => 0
  | c :: _ => c.values.length

/-- Row `i` of a frame, one cell per column. -/
def DataFrame.row (df : DataFrame) (i : Nat) : List Value :=
  df.cols.map (fun c => c.values.getD i .null)

/-- All rows of a frame in order. -/
def DataFrame.rowsList (df : DataFrame) : List (List Value) :=
  (List.range df.nRows).map df.row

/-- Rebuild a frame from a filtered list of its rows, keeping column names
and dtypes; models row selection such as `df.drop_duplicates()`. -/
def rebuildFromRows (df : DataFrame) (rs : List (List Value)) : DataFrame :=
  ⟨df.cols.enum.map (fun p => { p.2 with values := rs.map (fun r => r.getD p.1 .null) })⟩

/-- Parse a decimal digit run to a natural number value. -/
def digitsVal (l : List Char) : Nat :=
  l.foldl (fun acc c => acc * 10 + (c.toNat - 48)) 0

/-- Parse the unsigned mantissa of a Python float literal: `digits`,
`digits.digits`, `digits.` or `.digits`. Returns the value and the
unconsumed input. -/
def parseMantissa (cs : List Char) : Option (ℚ × List Char) :=
  let ip := cs.takeWhile Char.isDigit
  let rest := cs.dropWhile Char.isDigit
  match rest with
  | '.' :: r =>
      let fp := r.takeWhile Char.isDigit
      let r2 := r.dropWhile Char.isDigit
      if ip.isEmpty ∧ fp.isEmpty then none
      else some ((digitsVal ip : ℚ) + (digitsVal fp : ℚ) / ((10 ^ fp.length : Nat) : ℚ), r2)
  | _ =>
      if ip.isEmpty then none else some ((digitsVal ip : ℚ), rest)

/-- Model of Python `float(s)`: optional surrounding whitespace, optional
sign, decimal mantissa, optional `e`/`E` exponent. (The `inf`/`nan` spellings
and digit-group underscores accepted by CPython are outside this model.)
Returns `none` where `float` raises `ValueError`. -/
def pythonFloat (s : String) : Option ℚ :=
  let cs := (pyStrip s).toList
  let (sign, cs) : ℚ × List Char :=
    match cs with
    | '+' :: r => (1, r)
    | '-' :: r => (-1, r)
    | r => (1, r)
  match parseMantissa cs with
  | none => none
  | some (m, rest) =>
      match rest with
      | [] => some (sign * m)
      | 'e' :: r | 'E' :: r =>
          let (esign, r) : Int × List Char :=
            match r with
            | '+' :: r2 => (1, r2)
            | '-' :: r2 => (-1, r2)
            | r2 => (1, r2)
          let ds := r.takeWhile Char.isDigit
          let r2 := r.dropWhile Char.isDigit
          if ds.isEmpty ∨ ¬ r2.isEmpty then none
          else
            let scale : ℚ := ((10 ^ digitsVal ds : Nat) : ℚ)
            some (if esign ≥ 0 then sign * m * scale else sign * m / scale)
      | _ => none

/-- Model of the date strings the pandas datetime parser (`pd.to_datetime`)
accepts, restricted to ISO `YYYY-MM-DD`; the library boundary accepts more
formats, which this development does not rely on. -/
def looksDate (s : String) : Bool :=
  match s.toList with
  | [y1, y2, y3, y4, '-', m1, m2, '-', d1, d2] =>
      y1.isDigit && y2.isDigit && y3.isDigit && y4.isDigit &&
      m1.isDigit && m2.isDigit && d1.isDigit && d2.isDigit &&
      1 ≤ digitsVal [m1, m2] && digitsVal [m1, m2] ≤ 12 &&
      1 ≤ digitsVal [d1, d2] && digitsVal [d1, d2] ≤ 31
  | _ => false

/-- Integer encoding of an ISO date string (model of the timestamp the
pandas parser produces; injective on the accepted strings). -/
def parseDateInt (s : String) : Int :=
  match s.toList with
  | [y1, y2, y3, y4, '-', m1, m2, '-', d1, d2] =>
      (digitsVal [y1, y2, y3, y4] : Int) * 10000 +
      (digitsVal [m1, m2] : Int) * 100 + (digitsVal [d1, d2] : Int)
  | _ => 0

/-- Python `int(x)` on a float: truncation toward zero. -/
def pyInt (q : ℚ) : Int :=
  if q ≥ 0 then q.floor else -((-q).floor)

namespace Customer

/-- One row of a customer-shaped table, as produced by `df.iterrows()`:
column name to cell value. -/
abbrev Row := List (String × Value)

/-- Look up a column value in a row (`name in row.index` plus access). -/
def rowGet (row : Row) (name : String) : Option Value :=
  (row.find? (fun p => p.1 = name)).map (·.2)

/-- CustomerProfiler._get_field: first alias present with a non-null value,
returned through Python `str()`. -/
def getField (row : Row) (names : List String) : Option String :=
  match names with
  | [] => none
  | n :: rest =>
      match rowGet row n with
      | some v => if v.isNull then getField row rest else some (pyStr v)
      | none => getField row rest

/-- CustomerProfiler._get_numeric: first alias whose non-null value converts
with Python `float()` (strings go through the float grammar; dates raise and
are skipped). -/
def getNumeric (row : Row) (names : List String) : Option ℚ :=
  match names with
  | [] => none
  | n :: rest =>
      match rowGet row n with
      | some (.num q) => some q
      | some (.str s) =>
          match pythonFloat s with
          | some q => some q
          | none => getNumeric row rest
      | some (.date _) => getNumeric row rest
      | _ => getNumeric row rest

/-- CustomerProfiler._get_date: first alias whose non-null value is a date or
a string the datetime parser accepts. -/
def getDate (row : Row) (names : List String) : Option Int :=
  match names with
  | [] => none
  | n :: rest =>
      match rowGet row n with
      | some (.date d) => some d
      | some (.str s) => if looksDate s then some (parseDateInt s) else getDate row rest
      | _ => getDate row rest

/-- One auto-generated customer insight. -/
structure Insight where
  category : String
  title : String
  description : String
  severity : String
  confidence : ℚ
deriving DecidableEq, Repr

/-- A customer profile as the dictionary built by
CustomerProfiler._build_profile. `none` in an `Option` field is the Python
`None` stored under the key, except for `average_order_value` and
`days_since_last_purchase`, whose keys are absent when `none` (`profile.get`
with a default applies there). -/
structure CustomerProfile where
  customer_id : Option String
  name : Option String
  email : Option String
  phone : Option String
  company : Option String
  industry : Option String
  job_title : Option String
  location : Option String
  account_value : Option ℚ
  lifetime_purchases : Option ℚ
  total_orders : Option Int
  engagement_score : Option Int
  nps_score : Option Int
  average_order_value : Option ℚ
  customer_since : Option Int
  last_purchase_date : Option Int
  days_since_last_purchase : Option Int
  engagement_level : String
  churn_risk : String
  insights : List Insight
deriving Repr

/-- Python truthiness of an optional number (`if x:`): false for `None` and
for zero. -/
def truthyQ : Option ℚ → Bool
  | some q => q ≠ 0
  | none => false

/-- Python truthiness of an optional integer. -/
def truthyI : Option Int → Bool
  | some n => n ≠ 0
  | none => false

/-- CustomerProfiler._calculate_engagement_level. `nps.getD 0` and
`days.getD 0` capture the Python `(x or 0)` idiom, which is value-equal. -/
def calcEngagementLevel (score : Option ℚ) (days : Option Int) (nps : Option ℚ) :
    String :=
  match score with
  | none => "moderate"
  | some s =>
      if s ≥ 90 ∧ nps.getD 0 ≥ 9 then "champion"
      else if s ≥ 80 then "active"
      else if s ≥ 60 then "moderate"
      else if s ≥ 40 ∨ days.getD 0 < 60 then "at_risk"
      else "dormant"

/-- CustomerProfiler._calculate_churn_risk. -/
def calcChurnRisk (score : Option ℚ) (days : Option Int) (tickets : Option ℚ)
    (nps : Option ℚ) : String :=
  let r1 : Nat := match score with | some s => if s < 70 then 1 else 0 | none => 0
  let r2 : Nat := match days with | some d => if d > 90 then 1 else 0 | none => 0
  let r3 : Nat := match tickets with | some t => if t > 5 then 1 else 0 | none => 0
  let r4 : Nat := match nps with | some n => if n < 7 then 1 else 0 | none => 0
  let riskFactors := r1 + r2 + r3 + r4
  if riskFactors ≥ 3 then "high"
  else if riskFactors ≥ 2 then "medium"
  else "low"

/-- Python ordered comparison where the left side may be `None`: comparing
`None` with a number raises `TypeError`. -/
def pyGe (x : Option Int) (y : Int) : Except String Bool :=
  match x with
  | some v => .ok (decide (v ≥ y))
  | none => .error "TypeError: comparison between NoneType and int"

/-- Python strict-less comparison with a possibly-`None` left side. -/
def pyLt (x : Option Int) (y : Int) : Except String Bool :=
  match x with
  | some v => .ok (decide (v < y))
  | none => .error "TypeError: comparison between NoneType and int"

/-- CustomerProfiler._get_percentile over the `account_value` column:
fraction of non-null values strictly below `value`, times 100. -/
def getPercentile (df : List Row) (column : String) (value : ℚ) : ℚ :=
  let vals := df.filterMap (fun r =>
    match rowGet r column with
    | some (.num q) => some q
    | _ => none)
  if vals.length = 0 then 50
  else ((vals.countP (fun q => q < value) : ℚ) / (vals.length : ℚ)) * 100

/-- Truncate a string to its first `n` characters (Python slice `s[:n]`). -/
def pyTake (s : String) (n : Nat) : String :=
  (s.toList.take n).asString

/-- Render an amount as the f-string `{x:,.0f}` does, without the thousands
grouping (presentation-only; no claim depends on the grouping commas). -/
def fmtAmount (q : ℚ) : String :=
  toString (roundHalfEvenQ q)

/-- CustomerProfiler._generate_insights, with Python `None`-comparison
failures surfaced in the `Except` error channel. The blocks run in source
order: revenue, engagement, churn risk, NPS, purchase pattern, tenure,
notes. -/
def generateInsights (today : Int) (p : CustomerProfile) (row : Row)
    (df : List Row) : Except String (List Insight) := do
  let revenue : List Insight :=
    match p.account_value with
    | some av =>
        if av ≠ 0 then
          let percentile := getPercentile df "account_value" av
          if percentile ≥ 90 then
            [⟨"revenue", "Top 10% High-Value Customer",
              s!"Account value of ${fmtAmount av} places this customer in the top 10%",
              "positive", 95/100⟩]
          else if percentile ≥ 75 then
            [⟨"revenue", "Above Average Account Value",
              s!"Account value of ${fmtAmount av} is above average",
              "positive", 85/100⟩]
          else []
        else []
    | none => []
  let ge90 ← pyGe p.engagement_score 90
  let engagementIns : List Insight ←
    if ge90 then
      pure [⟨"engagement", "Highly Engaged Customer",
        s!"Engagement score of {(p.engagement_score.getD 0)} indicates strong product adoption",
        "positive", 9/10⟩]
    else do
      let lt70 ← pyLt p.engagement_score 70
      if lt70 then
        pure [⟨"engagement", "Low Engagement Warning",
          s!"Engagement score of {(p.engagement_score.getD 0)} suggests customer may need attention",
          "negative", 8/10⟩]
      else pure []
  let churnIns : List Insight ←
    if p.churn_risk = "high" then do
      let reasons1 : List String :=
        if p.days_since_last_purchase.getD 0 > 90 then ["no recent purchases"] else []
      let lt70 ← pyLt p.engagement_score 70
      let reasons2 := reasons1 ++ (if lt70 then ["low engagement"] else [])
      let npsLt7 ← pyLt p.nps_score 7
      let reasons3 := reasons2 ++ (if npsLt7 then ["low NPS"] else [])
      let reasonsText := String.intercalate ", " reasons3
      pure [⟨"risk", "High Churn Risk",
        s!"Customer shows churn indicators: {reasonsText}",
        "negative", 85/100⟩]
    else pure []
  let npsIns : List Insight :=
    match p.nps_score with
    | some nps =>
        if nps ≥ 9 then
          [⟨"advocacy", "Promoter - Referral Opportunity",
            s!"NPS score of {nps} indicates strong satisfaction. Consider referral program.",
            "positive", 9/10⟩]
        else if nps ≤ 6 then
          [⟨"satisfaction", "Detractor - Needs Attention",
            s!"NPS score of {nps} indicates dissatisfaction. Immediate outreach recommended.",
            "negative", 9/10⟩]
        else []
    | none => []
  let purchaseIns : List Insight :=
    if truthyQ p.average_order_value ∧ truthyI p.total_orders then
      let orders := p.total_orders.getD 0
      let avg := p.average_order_value.getD 0
      if orders > 20 then
        [⟨"behavior", "Loyal Repeat Customer",
          s!"{orders} orders with ${fmtAmount avg} average. Strong loyalty indicator.",
          "positive", 85/100⟩]
      else []
    else []
  let tenureIns : List Insight :=
    match p.customer_since with
    | some since =>
        let years : ℚ := ((today - since : Int) : ℚ) / (36525/100)
        if years ≥ 3 then
          [⟨"loyalty", "Long-term Customer",
            s!"Customer for {fmt1 years} years. Prioritize retention.",
            "positive", 95/100⟩]
        else []
    | none => []
  let notesIns : List Insight :=
    match getField row ["notes", "comments", "description"] with
    | some notes =>
        let lower := strLower notes
        let opp :=
          if containsSub lower "interested" ∨ containsSub lower "expansion" ∨
              containsSub lower "upgrade" then
            [⟨"opportunity", "Expansion Opportunity",
              s!"Notes indicate interest: {pyTake notes 100}", "positive", 7/10⟩]
          else []
        let risk :=
          if containsSub lower "churn" ∨ containsSub lower "cancel" ∨
              containsSub lower "competitor" ∨ containsSub lower "at-risk" then
            [⟨"risk", "Churn Warning in Notes",
              s!"Notes contain risk indicators: {pyTake notes 100}", "negative", 8/10⟩]
          else []
        opp ++ risk
    | none => []
  return revenue ++ engagementIns ++ churnIns ++ npsIns ++ purchaseIns ++
    tenureIns ++ notesIns

/-- CustomerProfiler._build_profile for one row, against the whole table and
the current date (days encoding); `datetime.now().date()` is the `today`
parameter. -/
def buildProfile (today : Int) (df : List Row) (row : Row) :
    Except String CustomerProfile := do
  let account_value := getNumeric row ["account_value", "arr", "contract_value"]
  let lifetime_purchases := getNumeric row ["lifetime_purchases", "ltv", "total_revenue"]
  let total_orders := getNumeric row ["total_orders", "order_count", "purchases"]
  let engagement_score := getNumeric row ["engagement_score", "health_score"]
  let nps_score := getNumeric row ["nps_score", "nps"]
  let support_tickets := getNumeric row ["support_tickets", "tickets", "issues"]
  let customer_since := getDate row ["customer_since", "created_at", "signup_date"]
  let last_purchase := getDate row ["last_purchase_date", "last_order_date"]
  let days_since : Option Int :=
    match last_purchase with
    | some d => some (today - d)
    | none => none
  let base : CustomerProfile :=
    { customer_id := getField row ["customer_id", "id"]
      name := getField row ["name", "customer_name"]
      email := getField row ["email", "email_address"]
      phone := getField row ["phone", "phone_number", "mobile"]
      company := getField row ["company", "organization", "account_name"]
      industry := getField row ["industry", "sector"]
      job_title := getField row ["job_title", "title", "position"]
      location := getField row ["location", "city", "region"]
      account_value := account_value
      lifetime_purchases := lifetime_purchases
      total_orders := if truthyQ total_orders then total_orders.map pyInt else none
      engagement_score := if truthyQ engagement_score then engagement_score.map pyInt else none
      nps_score := if truthyQ nps_score then nps_score.map pyInt else none
      average_order_value :=
        if truthyQ lifetime_purchases ∧ truthyQ total_orders then
          some (lifetime_purchases.getD 0 / total_orders.getD 1)
        else none
      customer_since := customer_since
      last_purchase_date := last_purchase
      days_since_last_purchase := days_since
      engagement_level := calcEngagementLevel engagement_score days_since nps_score
      churn_risk := calcChurnRisk engagement_score days_since support_tickets nps_score
      insights := [] }
  let ins ← generateInsights today base row df
  return { base with insights := ins }

/-- CustomerProfiler.profile_customers: one profile per row, in order; a
Python exception in any row aborts the whole call. -/
def profileCustomers (today : Int) (df : List Row) :
    Except String (List CustomerProfile) :=
  df.mapM (buildProfile today df)

end Customer

namespace Finance

/-- Round-half-to-even at two decimal places; model of Python
`round(amount, 2)` computed on the exact rational value. -/
def pyRound2 (q : ℚ) : ℚ :=
  (roundHalfEvenQ (q * 100) : ℚ) / 100

/-- FinanceValidator.validate_currency cleanup: remove the `$`/`€`/`£`
currency symbols and every comma, then strip surrounding whitespace. -/
def stripCurrency (v : String) : String :=
  pyStrip (pyReplace (pyReplace (pyReplace (pyReplace v "$" "") "€" "") "£" "") "," "")

/-- FinanceValidator.validate_currency: missing input is invalid; otherwise
the cleaned string is parsed with `float`, negative amounts and amounts
above 1e12 are rejected, and accepted amounts are rounded to 2 decimals. -/
def validateCurrency (value : Option String) : Bool × Option ℚ :=
  match value with
  | none => (false, none)
  | some v =>
      let clean := stripCurrency v
      match pythonFloat clean with
      | none => (false, none)
      | some amount =>
          if amount < 0 then (false, none)
          else if amount > 1000000000000 then (false, none)
          else (true, some (pyRound2 amount))

end Finance

namespace Profiler

/-- Per-column profile computed by DataProfiler.profile_column. -/
structure ColumnProfile where
  name : String
  dtype : Dtype
  inferredType : String
  totalCount : Nat
  nullCount : Nat
  nullPercentage : ℚ
  uniqueCount : Nat
  uniquePercentage : ℚ
  duplicateCount : Nat
  sampleValues : List Value
  issues : List String
deriving Repr

/-- Whole-dataset profile computed by DataProfiler.profile_dataset.
`issuesSummary` keeps the two keyed counters of the source dictionary. -/
structure DatasetProfile where
  totalRows : Nat
  totalColumns : Nat
  duplicateRows : Nat
  memoryUsageMB : ℚ
  columnProfiles : List ColumnProfile
  overallQualityScore : ℚ
  issuesSummary : List (String × Nat)
deriving Repr

/-- DataProfiler.infer_column_type: empty, numeric and datetime dtypes first;
object columns are classified email / datetime / categorical / text from a
sample; other storage types map to mixed (unreachable in this three-dtype
model). -/
def inferColumnType (c : Col) : String :=
  let nonNull := dropNA c.values
  if nonNull.length = 0 then "empty"
  else if c.dtype = .numeric then "numeric"
  else if c.dtype = .datetime then "datetime"
  else if c.dtype = .object then
    let sample := (nonNull.map pyStr).take 100
    if ((sample.countP (fun s => containsSub s "@") : ℚ) / (sample.length : ℚ)) > 8/10 then
      "email"
    else if (sample.take 10).all looksDate then "datetime"
    else
      let uniqueRatio : ℚ := (nuniqueVals c.values : ℚ) / (c.values.length : ℚ)
      if uniqueRatio < 5/100 ∨ nuniqueVals c.values < 20 then "categorical"
      else "text"
  else "mixed"

/-- DataProfiler.profile_column. -/
def profileColumn (c : Col) : ColumnProfile :=
  let total := c.values.length
  let nullCount := c.values.countP (·.isNull)
  let nullPct : ℚ := if total > 0 then (nullCount : ℚ) / (total : ℚ) * 100 else 0
  let uniqueCount := nuniqueVals c.values
  let uniquePct : ℚ := if total > 0 then (uniqueCount : ℚ) / (total : ℚ) * 100 else 0
  let issues := if nullPct > 50 then [s!"High null rate: {fmt1 nullPct}%"] else []
  { name := c.name
    dtype := c.dtype
    inferredType := inferColumnType c
    totalCount := total
    nullCount := nullCount
    nullPercentage := nullPct
    uniqueCount := uniqueCount
    uniquePercentage := uniquePct
    duplicateCount := total - uniqueCount
    sampleValues := (dropNA c.values).take 5
    issues := issues }

/-- Model of the pandas `memory_usage(deep=True).sum()` library boundary:
a per-frame index overhead plus a per-cell cost (8 bytes for numeric,
datetime and missing cells; string length plus object overhead for strings).
No claim depends on the exact accounting. -/
def memoryUsageDeepBytes (df : DataFrame) : Nat :=
  128 + (df.cols.map (fun c =>
    (c.values.map (fun v =>
      match v with
      | .str s => 49 + s.length
      | _ => 8)).sum)).sum

/-- DataProfiler.profile_dataset: aggregates column profiles, counts fully
duplicated rows, converts deep memory usage to MB, and assigns the fixed
quality score 85.0. -/
def profileDataset (df : DataFrame) : DatasetProfile :=
  let duplicateRows := df.nRows - (dropDuplicates df.rowsList).length
  let memoryMB : ℚ := (memoryUsageDeepBytes df : ℚ) / 1024 / 1024
  let columnProfiles := df.cols.map profileColumn
  let qualityScore : ℚ := 85
  { totalRows := df.nRows
    totalColumns := df.cols.length
    duplicateRows := duplicateRows
    memoryUsageMB := memoryMB
    columnProfiles := columnProfiles
    overallQualityScore := qualityScore
    issuesSummary :=
      [("high_null_columns", columnProfiles.countP (fun p => p.nullPercentage > 50)),
       ("duplicate_rows", duplicateRows)] }

end Profiler

namespace Validator

/-- Validation severity levels. -/
inductive VLevel where
  | error
  | warning
  | info
deriving DecidableEq, Repr

/-- One validation issue (ValidationIssue). -/
structure VIssue where
  level : VLevel
  column : Option String
  message : String
  count : Nat := 1
  sampleValues : List Value := []
deriving DecidableEq, Repr

/-- The complete validation report (ValidationReport). -/
structure VReport where
  passed : Bool
  totalIssues : Nat
  errors : List VIssue
  warnings : List VIssue
  info : List VIssue
  schemaCompliant : Bool
deriving DecidableEq, Repr

/-- Elements of a list that duplicate an earlier element, in order; models
`df.columns[df.columns.duplicated()]`. -/
def dupLaterAux [DecidableEq α] (seen : List α) : List α → List α
  | [] => []
  | x :: xs => if x ∈ seen then x :: dupLaterAux seen xs else dupLaterAux (x :: seen) xs

/-- Column names that appear more than once, later occurrences only. -/
def dupLater [DecidableEq α] (l : List α) : List α :=
  dupLaterAux [] l

/-- DataValidator._validate_structure: empty table and missing columns are
errors with an early return; duplicate column names are an error; columns
named `Unnamed:*` a warning. -/
def validateStructure (df : DataFrame) : List VIssue :=
  if df.nRows = 0 then
    [⟨.error, none, "DataFrame is empty (0 rows)", 1, []⟩]
  else if df.cols.length = 0 then
    [⟨.error, none, "DataFrame has no columns", 1, []⟩]
  else
    let names := df.cols.map (·.name)
    let dups := dupLater names
    let dupIssue : List VIssue :=
      if dups ≠ [] then
        [⟨.error, none, s!"Duplicate column names found: {pyListRepr dups}", 1, []⟩]
      else []
    let unnamed := names.filter (fun n => "Unnamed:".toList.isPrefixOf n.toList)
    let unnamedIssue : List VIssue :=
      if unnamed ≠ [] then
        [⟨.warning, none, s!"Unnamed columns detected: {pyListRepr unnamed}", 1, []⟩]
      else []
    dupIssue ++ unnamedIssue

/-- Python type name of a non-null cell stored in an object column. -/
def pyTypeName : Value → String
  | .null => "NoneType"
  | .str _ => "str"
  | .num _ => "float"
  | .date _ => "Timestamp"

/-- DataValidator._validate_data_types: object columns whose non-null values
span more than one concrete Python type get a warning naming the types. -/
def validateDataTypes (df : DataFrame) : List VIssue :=
  df.cols.flatMap (fun c =>
    if c.dtype = .object then
      let nonNull := dropNA c.values
      if nonNull.length = 0 then []
      else
        let types := dropDuplicates (nonNull.map pyTypeName)
        if types.length > 1 then
          [⟨.warning, some c.name, s!"Mixed types detected: {pyListRepr types}", 1, []⟩]
        else []
    else [])

/-- DataValidator._validate_data_quality: null-percentage tiers, constant
columns, and all-unique columns on tables with more than 100 rows. -/
def validateDataQuality (df : DataFrame) : List VIssue :=
  df.cols.flatMap (fun c =>
    let nullPct : ℚ := (c.values.countP (·.isNull) : ℚ) / (df.nRows : ℚ) * 100
    let nullIssue : List VIssue :=
      if nullPct = 100 then [⟨.error, some c.name, "Column is entirely null", 1, []⟩]
      else if nullPct > 50 then
        [⟨.warning, some c.name, s!"High null percentage: {fmt1 nullPct}%", 1, []⟩]
      else if nullPct > 10 then
        [⟨.info, some c.name, s!"Moderate null percentage: {fmt1 nullPct}%", 1, []⟩]
      else []
    let constIssue : List VIssue :=
      if nuniqueVals c.values = 1 then
        [⟨.warning, some c.name, "Column has only one unique value (constant)", 1,
          [c.values.getD 0 .null]⟩]
      else []
    let cardIssue : List VIssue :=
      if nuniqueVals c.values = df.nRows ∧ df.nRows > 100 then
        [⟨.info, some c.name, "Very high cardinality (all values unique)", 1, []⟩]
      else []
    nullIssue ++ constIssue ++ cardIssue)

/-- Numeric cell values of a column (comparisons with NaN are false in
pandas, so nulls simply drop out of the counts). -/
def numericVals (c : Col) : List ℚ :=
  c.values.filterMap (fun v => match v with | .num q => some q | _ => none)

/-- Python regex search `@.*\.`: some `@` is followed, anywhere later, by a
dot. -/
def hasAtDot (s : String) : Bool :=
  let rec go : List Char → Bool
    | [] => false
    | c :: rest => if c = '@' then rest.contains '.' else go rest
  go s.toList

/-- DataValidator._validate_business_rules: negative values in
amount-like numeric columns, zero-heavy quantity/count columns, malformed
emails, and date-named columns that are not datetime typed. -/
def validateBusinessRules (df : DataFrame) : List VIssue :=
  df.cols.flatMap (fun c =>
    let nameL := strLower c.name
    let numericIssues : List VIssue :=
      if c.dtype = .numeric then
        let negIssue : List VIssue :=
          if ["price", "cost", "amount", "quantity", "count", "age"].any
              (fun k => containsSub nameL k) then
            let negativeCount := (numericVals c).countP (fun q => q < 0)
            if negativeCount > 0 then
              [⟨.warning, some c.name,
                s!"Contains {negativeCount} negative values (unusual for {c.name})",
                negativeCount, []⟩]
            else []
          else []
        let zeroIssue : List VIssue :=
          if ["quantity", "count"].any (fun k => containsSub nameL k) then
            let zeroCount := (numericVals c).countP (fun q => q = 0)
            if (zeroCount : ℚ) > (df.nRows : ℚ) * (1/10) then
              [⟨.info, some c.name,
                s!"{zeroCount} zero values ({fmt1 ((zeroCount : ℚ) / (df.nRows : ℚ) * 100)}%)",
                zeroCount, []⟩]
            else []
          else []
        negIssue ++ zeroIssue
      else []
    let emailIssues : List VIssue :=
      if containsSub nameL "email" then
        let nonNull := (dropNA c.values).map pyStr
        if nonNull.length > 0 then
          let invalid := nonNull.filter (fun s => ¬ hasAtDot s)
          if invalid.length > 0 then
            [⟨.warning, some c.name, s!"{invalid.length} invalid email formats",
              invalid.length, (invalid.take 3).map Value.str⟩]
          else []
        else []
      else []
    let dateIssues : List VIssue :=
      if ["date", "time", "timestamp"].any (fun k => containsSub nameL k) then
        if c.dtype ≠ .datetime then
          [⟨.info, some c.name, "Column name suggests date/time but not datetime type", 1, []⟩]
        else []
      else []
    numericIssues ++ emailIssues ++ dateIssues)

/-- All issues collected by DataValidator.validate, in source order. -/
def collectIssues (df : DataFrame) : List VIssue :=
  validateStructure df ++ validateDataTypes df ++ validateDataQuality df ++
    validateBusinessRules df

/-- DataValidator.validate without a schema: partition the issues, promote
warnings to errors in strict mode, pass iff no errors remain. -/
def validate (strict : Bool) (df : DataFrame) : VReport :=
  let issues := collectIssues df
  let errors := issues.filter (fun i => i.level = .error)
  let warnings := issues.filter (fun i => i.level = .warning)
  let infoIssues := issues.filter (fun i => i.level = .info)
  let errors2 := if strict then errors ++ warnings else errors
  let warnings2 := if strict then [] else warnings
  { passed := errors2.length = 0
    totalIssues := issues.length
    errors := errors2
    warnings := warnings2
    info := infoIssues
    schemaCompliant := true }

end Validator

namespace Cleaner

/-- Tracking state of a DataCleaner run: `operations`, `cells_modified`,
`columns_modified` (the Python set is kept as an insertion-ordered list). -/
structure CleanState where
  operations : List String
  cellsModified : Nat
  columnsModified : List String
deriving DecidableEq, Repr

/-- Report of the cleaning operations performed (CleaningReport). -/
structure CleaningReport where
  operationsPerformed : List String
  rowsBefore : Nat
  rowsAfter : Nat
  columnsModified : List String
  rowsRemoved : Nat
  cellsModified : Nat
deriving DecidableEq, Repr

/-- Add a column to the modified set (`self.columns_modified.add`). -/
def addColMod (st : CleanState) (c : String) : CleanState :=
  if c ∈ st.columnsModified then st
  else { st with columnsModified := st.columnsModified ++ [c] }

/-- Append an operation message (`self.operations.append`). -/
def addOp (st : CleanState) (m : String) : CleanState :=
  { st with operations := st.operations ++ [m] }

/-- DataCleaner._remove_duplicates: drop exact duplicate rows (keep first)
and log the removed count when positive; the frame is untouched otherwise. -/
def removeDuplicatesStep (df : DataFrame) (st : CleanState) : DataFrame × CleanState :=
  let rs := df.rowsList
  let dd := dropDuplicates rs
  let duplicates := rs.length - dd.length
  if duplicates > 0 then
    (rebuildFromRows df dd, addOp st s!"Removed {duplicates} duplicate rows")
  else (df, st)

/-- ASCII model of the regex class `\w` (word character). -/
def isWordChar (c : Char) : Bool :=
  c.isAlphanum || c = '_'

/-- Collapse each maximal whitespace run to one underscore
(`re.sub(r'\s+', '_', s)`); the flag records an open run. -/
def collapseWsAux : Bool → List Char → List Char
  | _, [] => []
  | inRun, c :: rest =>
      if c.isWhitespace then
        if inRun then collapseWsAux true rest
        else '_' :: collapseWsAux true rest
      else c :: collapseWsAux false rest

/-- DataCleaner._standardize_column_names name derivation: drop characters
outside `\w`/`\s`, collapse whitespace runs to underscores, lower-case,
strip surrounding underscores. -/
def stdColName (s : String) : String :=
  let s1 := (s.toList.filter (fun ch => isWordChar ch || ch.isWhitespace)).asString
  let s2 := (collapseWsAux false s1.toList).asString
  stripChar '_' (strLower s2)

/-- DataCleaner._standardize_column_names: rename only the columns whose
derived name differs, logging the rename count when any. -/
def standardizeColumnNamesStep (df : DataFrame) (st : CleanState) :
    DataFrame × CleanState :=
  let renamed := df.cols.countP (fun c => stdColName c.name ≠ c.name)
  if renamed > 0 then
    (⟨df.cols.map (fun c =>
        if stdColName c.name ≠ c.name then { c with name := stdColName c.name } else c)⟩,
      addOp st s!"Standardized {renamed} column names to snake_case")
  else (df, st)

/-- Insert into a list sorted by `le` (insertion sort worker). -/
def insertSorted (le : α → α → Bool) (x : α) : List α → List α
  | [] => [x]
  | y :: ys => if le x y then x :: y :: ys else y :: insertSorted le x ys

/-- Insertion sort by a boolean order. -/
def sortBy (le : α → α → Bool) : List α → List α
  | [] => []
  | x :: xs => insertSorted le x (sortBy le xs)

/-- Sort rationals ascending. -/
def sortRat (l : List ℚ) : List ℚ :=
  sortBy (fun a b => decide (a ≤ b)) l

/-- Model of pandas `Series.median` (skipna): middle value of the sorted
non-null values, or the mean of the two middles; `none` models the NaN
result on an empty series. -/
def median (l : List ℚ) : Option ℚ :=
  let s := sortRat l
  match s.length with
  | 0 => none
  | n =>
      if n % 2 = 1 then some (s.getD (n / 2) 0)
      else some ((s.getD (n / 2 - 1) 0 + s.getD (n / 2) 0) / 2)

/-- Order used by pandas when sorting mixed values in `Series.mode`:
by value within a type, with an arbitrary fixed rank across types
(cross-type sorting raises in pandas; no claim exercises it). -/
def valueLeB : Value → Value → Bool
  | .null, _ => true
  | _, .null => false
  | .num a, .num b => decide (a ≤ b)
  | .num _, _ => true
  | _, .num _ => false
  | .str a, .str b => decide (a ≤ b)
  | .str _, _ => true
  | _, .str _ => false
  | .date a, .date b => decide (a ≤ b)

/-- Model of pandas `Series.mode` (dropna): the most frequent non-null
values, sorted ascending. -/
def modeList (l : List Value) : List Value :=
  let nn := dropNA l
  let uniq := dropDuplicates nn
  let maxCount := (uniq.map (fun v => nn.count v)).foldr max 0
  sortBy valueLeB (uniq.filter (fun v => nn.count v = maxCount))

/-- Forward fill (`fillna(method='ffill')`): each null takes the last
non-null value above it; leading nulls stay null. -/
def ffillAux (last : Value) : List Value → List Value
  | [] => []
  | v :: rest => if v.isNull then last :: ffillAux last rest else v :: ffillAux v rest

/-- Replace nulls by a fill value (`fillna(v)`); filling with null is a
no-op, as pandas `fillna(nan)` is. -/
def fillNulls (fill : Value) : List Value → List Value :=
  List.map (fun v => if v.isNull then fill else v)

/-- Replace the values of every column carrying `name`. -/
def setColVals (df : DataFrame) (name : String) (vals : List Value) : DataFrame :=
  ⟨df.cols.map (fun c => if c.name = name then { c with values := vals } else c)⟩

/-- Drop every column carrying `name` (`df.drop(columns=[name])`). -/
def dropColumn (df : DataFrame) (name : String) : DataFrame :=
  ⟨df.cols.filter (fun c => c.name ≠ name)⟩

/-- First column carrying `name` (`df[name]` on a unique-name frame). -/
def findCol (df : DataFrame) (name : String) : Option Col :=
  df.cols.find? (fun c => c.name = name)

/-- DataCleaner._handle_missing_values for one column name. -/
def handleMissingCol (aggressive : Bool) (nRowsTotal : Nat)
    (acc : DataFrame × CleanState) (name : String) : DataFrame × CleanState :=
  let (df, st) := acc
  match findCol df name with
  | none => (df, st)
  | some c =>
      let nullCount := c.values.countP (·.isNull)
      if nullCount = 0 then (df, st)
      else
        let nullPct : ℚ := (nullCount : ℚ) / (nRowsTotal : ℚ) * 100
        if aggressive ∧ nullPct > 80 then
          (dropColumn df name,
            addOp st s!"Dropped column '{name}' (>{fmt1 nullPct}% null)")
        else
          match c.dtype with
          | .numeric =>
              let fillValue := median (c.values.filterMap
                (fun v => match v with | .num q => some q | _ => none))
              let fillCell := match fillValue with | some m => Value.num m | none => Value.null
              let fillRepr := match fillValue with | some m => pyFloatRepr m | none => "nan"
              let st1 := addOp st s!"Filled {nullCount} nulls in '{name}' with median ({fillRepr})"
              let st2 := addColMod { st1 with cellsModified := st1.cellsModified + nullCount } name
              (setColVals df name (fillNulls fillCell c.values), st2)
          | .datetime =>
              let st1 := addOp st s!"Forward-filled {nullCount} nulls in '{name}'"
              let st2 := addColMod { st1 with cellsModified := st1.cellsModified + nullCount } name
              (setColVals df name (ffillAux .null c.values), st2)
          | .object =>
              let fillCell := match modeList c.values with
                | v :: _ => v
                | [] => Value.str "Unknown"
              let st1 := addOp st s!"Filled {nullCount} nulls in '{name}' with '{pyStr fillCell}'"
              let st2 := addColMod { st1 with cellsModified := st1.cellsModified + nullCount } name
              (setColVals df name (fillNulls fillCell c.values), st2)

/-- DataCleaner._handle_missing_values: iterate over the column list as it
stood at loop entry, dropping very-null columns in aggressive mode and
filling by median / forward-fill / mode otherwise. -/
def handleMissingStep (aggressive : Bool) (df : DataFrame) (st : CleanState) :
    DataFrame × CleanState :=
  (df.cols.map (·.name)).foldl (handleMissingCol aggressive df.nRows) (df, st)

/-- Map over the columns of a frame threading the cleaning state. -/
def mapAccumCols (f : Col → CleanState → Col × CleanState) :
    List Col → CleanState → List Col × CleanState
  | [], st => ([], st)
  | c :: cs, st =>
      let (c1, st1) := f c st
      let (cs1, st2) := mapAccumCols f cs st1
      (c1 :: cs1, st2)

/-- Prefix match of the regex `^-?\d+\.?\d*` (Python `str.match`): an
optional minus followed by at least one digit suffices. -/
def numericMatch (s : String) : Bool :=
  match s.toList with
  | '-' :: c :: _ => c.isDigit
  | c :: _ => c.isDigit
  | [] => false

/-- DataCleaner._looks_numeric: never for an already numeric column; over
80% of a 50-row string sample must prefix-match the numeric regex. -/
def looksNumeric (c : Col) : Bool :=
  if c.dtype = .numeric then false
  else
    let sample := ((dropNA c.values).map pyStr).take 50
    if sample.length = 0 then false
    else decide (((sample.countP numericMatch : ℚ) / (sample.length : ℚ)) > 8/10)

/-- Whether `pd.to_datetime` accepts one cell (numbers parse as epochs). -/
def cellParsesAsDate : Value → Bool
  | .str s => looksDate s
  | .num _ => true
  | .date _ => true
  | .null => true

/-- DataCleaner._looks_datetime: never for an already datetime column; a
20-row non-null sample must parse entirely. -/
def looksDatetime (c : Col) : Bool :=
  if c.dtype = .datetime then false
  else
    let sample := (dropNA c.values).take 20
    if sample.length = 0 then false
    else sample.all cellParsesAsDate

/-- Keep only digits, dots and minus signs
(`str.replace(r'[^\d.-]', '', regex=True)` after `astype(str)`). -/
def keepNumericChars (s : String) : String :=
  (s.toList.filter (fun ch => ch.isDigit || ch = '.' || ch = '-')).asString

/-- Model of `pd.to_numeric(errors='coerce')` on one string cell. -/
def toNumericCell (s : String) : Value :=
  match pythonFloat s with
  | some q => .num q
  | none => .null

/-- Model of `pd.to_datetime(errors='coerce')` on one cell. -/
def toDatetimeCell : Value → Value
  | .str s => if looksDate s then .date (parseDateInt s) else .null
  | .num q => .date (pyInt q)
  | .date d => .date d
  | .null => .null

/-- DataCleaner._fix_data_types for one column. -/
def fixTypeCol (c : Col) (st : CleanState) : Col × CleanState :=
  if c.dtype = .numeric ∨ c.dtype = .datetime then (c, st)
  else if looksNumeric c then
    ({ c with
        dtype := Dtype.numeric
        values := c.values.map (fun v => toNumericCell (keepNumericChars (pyStr v))) },
      addColMod (addOp st s!"Converted '{c.name}' to numeric type") c.name)
  else if looksDatetime c then
    ({ c with dtype := Dtype.datetime, values := c.values.map toDatetimeCell },
      addColMod (addOp st s!"Converted '{c.name}' to datetime type") c.name)
  else (c, st)

/-- DataCleaner._fix_data_types over the whole frame. -/
def fixDataTypesStep (df : DataFrame) (st : CleanState) : DataFrame × CleanState :=
  let (cols, st1) := mapAccumCols fixTypeCol df.cols st
  (⟨cols⟩, st1)

/-- Count positions where the two value lists differ, model of
`(new != old).sum()` (the new values are never NaN here, so the pandas
NaN-inequality convention agrees with plain disequality). -/
def countDiff (new old : List Value) : Nat :=
  (new.zip old).countP (fun p => p.1 ≠ p.2)

/-- DataCleaner._standardize_text for one column: object columns are cast
to strings and stripped; low-cardinality columns are additionally
lower-cased, with logging only when that changed something. -/
def standardizeTextCol (nRowsTotal : Nat) (c : Col) (st : CleanState) :
    Col × CleanState :=
  if c.dtype = .object then
    let original := c.values
    let stripped := c.values.map (fun v => Value.str (pyStrip (pyStr v)))
    let uniqueRatio : ℚ := (nuniqueVals stripped : ℚ) / (nRowsTotal : ℚ)
    if uniqueRatio < 1/10 then
      let lowered := stripped.map (fun v =>
        match v with | .str s => Value.str (strLower s) | v => v)
      if lowered ≠ original then
        let modifiedCount := countDiff lowered original
        let st1 := addOp st s!"Standardized text in '{c.name}' (lowercase, trimmed)"
        let st2 := addColMod { st1 with cellsModified := st1.cellsModified + modifiedCount } c.name
        ({ c with values := lowered }, st2)
      else ({ c with values := lowered }, st)
    else ({ c with values := stripped }, st)
  else (c, st)

/-- DataCleaner._standardize_text over the whole frame. -/
def standardizeTextStep (df : DataFrame) (st : CleanState) : DataFrame × CleanState :=
  let (cols, st1) := mapAccumCols (standardizeTextCol df.nRows) df.cols st
  (⟨cols⟩, st1)

/-- Model of pandas `Series.quantile` with linear interpolation over the
sorted non-null values; `none` models the NaN result on an empty series. -/
def quantileQ (l : List ℚ) (p : ℚ) : Option ℚ :=
  let s := sortRat l
  match s.length with
  | 0 => none
  | n =>
      let h : ℚ := p * ((n : ℚ) - 1)
      let i := h.floor.toNat
      let lo := s.getD i 0
      let hi := s.getD (min (i + 1) (n - 1)) 0
      some (lo + (h - (h.floor : ℚ)) * (hi - lo))

/-- DataCleaner._handle_outliers for one numeric column: Tukey fences at
1.5 × IQR, clamping out-of-range values and logging the capped count. -/
def handleOutliersCol (c : Col) (st : CleanState) : Col × CleanState :=
  if c.dtype = .numeric then
    let nums := c.values.filterMap (fun v => match v with | .num q => some q | _ => none)
    match quantileQ nums (1/4), quantileQ nums (3/4) with
    | some q1, some q3 =>
        let iqr := q3 - q1
        let lowerBound := q1 - (3/2) * iqr
        let upperBound := q3 + (3/2) * iqr
        let outlierCount := nums.countP (fun q => q < lowerBound ∨ q > upperBound)
        if outlierCount > 0 then
          let capped := c.values.map (fun v =>
            match v with
            | .num q =>
                if q < lowerBound then Value.num lowerBound
                else if q > upperBound then Value.num upperBound
                else v
            | v => v)
          let st1 := addOp st s!"Capped {outlierCount} outliers in '{c.name}'"
          let st2 := addColMod { st1 with cellsModified := st1.cellsModified + outlierCount } c.name
          ({ c with values := capped }, st2)
        else (c, st)
    | _, _ => (c, st)
  else (c, st)

/-- DataCleaner._handle_outliers over the whole frame (aggressive mode
only; the gate is applied by the caller). -/
def handleOutliersStep (df : DataFrame) (st : CleanState) : DataFrame × CleanState :=
  let (cols, st1) := mapAccumCols handleOutliersCol df.cols st
  (⟨cols⟩, st1)

/-- The regex search `@.*\.` applied to one cell as the pattern step does. -/
def hasAtDotV : Value → Bool
  | .str s => Validator.hasAtDot s
  | .null => false
  | v => Validator.hasAtDot (pyStr v)

/-- DataCleaner._validate_patterns for one column: email-named columns are
lower-cased/stripped with invalid addresses nulled out; status/category/
type/region-named object columns are lower-cased/stripped with modified
cells counted (no operation message in the source for that branch). -/
def validatePatternsCol (c : Col) (st : CleanState) : Col × CleanState :=
  let nameL := strLower c.name
  let (c1, st1) :=
    if containsSub nameL "email" then
      let normalized := c.values.map (fun v => Value.str (pyStrip (strLower (pyStr v))))
      let invalidCount := normalized.countP (fun v => ¬ hasAtDotV v)
      if invalidCount > 0 then
        let nulled := normalized.map (fun v => if hasAtDotV v then v else Value.null)
        let stA := addOp st s!"Removed {invalidCount} invalid emails from '{c.name}'"
        let stB := addColMod { stA with cellsModified := stA.cellsModified + invalidCount } c.name
        ({ c with dtype := Dtype.object, values := nulled }, stB)
      else ({ c with dtype := Dtype.object, values := normalized }, st)
    else (c, st)
  if ["status", "category", "type", "region"].any (fun k => containsSub nameL k) then
    if c1.dtype = .object then
      let original := c1.values
      let normalized := c1.values.map (fun v => Value.str (pyStrip (strLower (pyStr v))))
      let modifiedCount := countDiff normalized original
      if modifiedCount > 0 then
        let st2 := addColMod { st1 with cellsModified := st1.cellsModified + modifiedCount } c1.name
        ({ c1 with values := normalized }, st2)
      else ({ c1 with values := normalized }, st1)
    else (c1, st1)
  else (c1, st1)

/-- DataCleaner._validate_patterns over the whole frame. -/
def validatePatternsStep (df : DataFrame) (st : CleanState) : DataFrame × CleanState :=
  let (cols, st1) := mapAccumCols validatePatternsCol df.cols st
  (⟨cols⟩, st1)

/-- The cleaning pipeline applied to a frame value: the seven steps of
DataCleaner.clean in source order, outlier capping only in aggressive
mode. -/
def cleanSteps (aggressive : Bool) (df : DataFrame) (st : CleanState) :
    DataFrame × CleanState :=
  let p1 := removeDuplicatesStep df st
  let p2 := standardizeColumnNamesStep p1.1 p1.2
  let p3 := handleMissingStep aggressive p2.1 p2.2
  let p4 := fixDataTypesStep p3.1 p3.2
  let p5 := standardizeTextStep p4.1 p4.2
  let p6 := if aggressive then handleOutliersStep p5.1 p5.2 else p5
  validatePatternsStep p6.1 p6.2

/-- DataCleaner.clean as a function of the frame value: runs the pipeline
with freshly reset tracking state and assembles the CleaningReport. -/
def clean (aggressive : Bool) (df : DataFrame) : DataFrame × CleaningReport :=
  let rowsBefore := df.nRows
  let p := cleanSteps aggressive df ⟨[], 0, []⟩
  (p.1,
    { operationsPerformed := p.2.operations
      rowsBefore := rowsBefore
      rowsAfter := p.1.nRows
      columnsModified := p.2.columnsModified
      rowsRemoved := rowsBefore - p.1.nRows
      cellsModified := p.2.cellsModified })

/-- Python object store for the frame objects alive during a cleaning call;
references are list indices. -/
abbrev Heap := List DataFrame

/-- DataCleaner.clean at the aliasing level: the caller passes a reference
`r` into the heap; the method first allocates `df.copy()` as a fresh object
and binds the local variable `df_clean` to it, then every pipeline step
reads and rebinds that one slot; the caller's object at `r` is never
written. Returns the final heap, the reference to the cleaned frame and the
CleaningReport. -/
def cleanOnHeap (aggressive : Bool) (h0 : Heap) (r : Nat) :
    Heap × Nat × CleaningReport :=
  let dfCopy := h0.getD r ⟨[]⟩
  let rc := h0.length
  let h1 := h0 ++ [dfCopy]
  let rowsBefore := dfCopy.nRows
  let p1 := removeDuplicatesStep (h1.getD rc ⟨[]⟩) ⟨[], 0, []⟩
  let h2 := h1.set rc p1.1
  let p2 := standardizeColumnNamesStep (h2.getD rc ⟨[]⟩) p1.2
  let h3 := h2.set rc p2.1
  let p3 := handleMissingStep aggressive (h3.getD rc ⟨[]⟩) p2.2
  let h4 := h3.set rc p3.1
  let p4 := fixDataTypesStep (h4.getD rc ⟨[]⟩) p3.2
  let h5 := h4.set rc p4.1
  let p5 := standardizeTextStep (h5.getD rc ⟨[]⟩) p4.2
  let h6 := h5.set rc p5.1
  let p6 := if aggressive then handleOutliersStep (h6.getD rc ⟨[]⟩) p5.2
    else (h6.getD rc ⟨[]⟩, p5.2)
  let h7 := h6.set rc p6.1
  let p7 := validatePatternsStep (h7.getD rc ⟨[]⟩) p6.2
  let h8 := h7.set rc p7.1
  let dfFinal := h8.getD rc ⟨[]⟩
  (h8, rc,
    { operationsPerformed := p7.2.operations
      rowsBefore := rowsBefore
      rowsAfter := dfFinal.nRows
      columnsModified := p7.2.columnsModified
      rowsRemoved := rowsBefore - dfFinal.nRows
      cellsModified := p7.2.cellsModified })

end Cleaner

/-- Split a character list on a separator character (worker). -/
def splitOnCharAux (sep : Char) (cur : List Char) : List Char → List (List Char)
  | [] => [cur.reverse]
  | c :: rest =>
      if c = sep then cur.reverse :: splitOnCharAux sep [] rest
      else splitOnCharAux sep (c :: cur) rest

/-- Split a character list on a separator character. -/
def splitOnChar (sep : Char) (l : List Char) : List (List Char) :=
  splitOnCharAux sep [] l

namespace Upload

/-- The subset of the API settings the upload endpoint consults. -/
structure UploadSettings where
  allowedExtensions : List String
  maxFileSizeMB : Nat
deriving Repr

/-- The success payload of POST /upload (UploadResponse). -/
structure UploadResponse where
  success : Bool
  fileId : String
  filename : String
  sizeBytes : Nat
  message : String
deriving DecidableEq, Repr

/-- Upload-directory state: stored filename to stored bytes. -/
abbrev Dir := List (String × List Nat)

/-- Model of `pathlib.PurePath.suffix`: on the last path component, the
substring from the last dot, provided that dot is neither the first nor the
last character of the name. -/
def pySuffix (filename : String) : String :=
  let name := (splitOnChar '/' filename.toList).getLastD []
  match name.reverse.findIdx? (· = '.') with
  | none => ""
  | some k =>
      let i := name.length - 1 - k
      if 0 < i ∧ i < name.length - 1 then (name.drop i).asString else ""

/-- The upload_file route handler: extension allow-list check (400), size
check against `max_file_size_mb × 1024 × 1024` (413, before any write),
then the write of `{file_id}{ext}` into the upload directory. `fileId`
stands for the generated UUID. Returns the HTTP outcome and the directory
state after the call. -/
def uploadFile (settings : UploadSettings) (dir : Dir) (fileId : String)
    (filename : String) (content : List Nat) :
    Except (Nat × String) UploadResponse × Dir :=
  let ext := strLower (pySuffix filename)
  if ¬ settings.allowedExtensions.contains ext then
    (.error (400, s!"File type {ext} not supported"), dir)
  else
    let fileSize := content.length
    let maxSizeBytes := settings.maxFileSizeMB * 1024 * 1024
    if fileSize > maxSizeBytes then
      (.error (413, s!"File too large. Maximum size: {settings.maxFileSizeMB}MB"), dir)
    else
      (.ok ⟨true, fileId, filename, fileSize, "File uploaded successfully"⟩,
        dir ++ [(fileId ++ ext, content)])

end Upload

namespace Audit

/-- JSON values as produced by the audit-log serialization. -/
inductive Json where
  | jnull
  | jbool (b : Bool)
  | jint (n : Int)
  | jstr (s : String)
  | jarr (xs : List Json)
  | jobj (fields : List (String × Json))
deriving Repr

/-- Escape one character for a JSON string literal. -/
def jsonEscapeChar (c : Char) : List Char :=
  if c = '"' then ['\\', '"']
  else if c = '\\' then ['\\', '\\']
  else if c = '\n' then ['\\', 'n']
  else if c = '\t' then ['\\', 't']
  else if c = '\r' then ['\\', 'r']
  else [c]

/-- A quoted, escaped JSON string literal. -/
def jsonQuote (s : String) : String :=
  "\"" ++ (s.toList.flatMap jsonEscapeChar).asString ++ "\""

/-- A run of spaces (the two-space indentation of `json.dumps(indent=2)`). -/
def spaces (n : Nat) : String :=
  (List.replicate n ' ').asString

mutual

/-- Model of Python `json.dumps(value, indent=2)` at nesting level `lvl`:
non-empty containers spread over one line per item, empty containers stay
inline. Fuel-driven; `jsonDumps2` supplies sufficient fuel. -/
def dumpsVal : Nat → Nat → Json → String
  | 0, _, _ => ""
  | fuel + 1, lvl, j =>
      match j with
      | .jnull => "null"
      | .jbool true => "true"
      | .jbool false => "false"
      | .jint n => toString n
      | .jstr s => jsonQuote s
      | .jarr [] => "[]"
      | .jarr xs =>
          "[\n" ++ String.intercalate ",\n" (dumpsArrItems fuel (lvl + 1) xs) ++
            "\n" ++ spaces (2 * lvl) ++ "]"
      | .jobj [] => "\x7b\x7d"
      | .jobj fs =>
          "\x7b\n" ++ String.intercalate ",\n" (dumpsObjItems fuel (lvl + 1) fs) ++
            "\n" ++ spaces (2 * lvl) ++ "\x7d"

/-- Array items, one indented line each. -/
def dumpsArrItems : Nat → Nat → List Json → List String
  | 0, _, _ => []
  | fuel + 1, lvl, l =>
      match l with
      | [] => []
      | x :: xs => (spaces (2 * lvl) ++ dumpsVal fuel lvl x) :: dumpsArrItems fuel lvl xs

/-- Object items, one indented `"key": value` line each. -/
def dumpsObjItems : Nat → Nat → List (String × Json) → List String
  | 0, _, _ => []
  | fuel + 1, lvl, l =>
      match l with
      | [] => []
      | (k, v) :: xs =>
          (spaces (2 * lvl) ++ jsonQuote k ++ ": " ++ dumpsVal fuel lvl v) ::
            dumpsObjItems fuel lvl xs

end

mutual

/-- Structural size of a JSON value, used as rendering fuel. -/
def jsonSize : Json → Nat
  | .jarr xs => 1 + jsonSizeList xs
  | .jobj fs => 1 + jsonSizeFields fs
  | _ => 1

/-- Structural size of a JSON array body. -/
def jsonSizeList : List Json → Nat
  | [] => 1
  | x :: xs => 1 + jsonSize x + jsonSizeList xs

/-- Structural size of a JSON object body. -/
def jsonSizeFields : List (String × Json) → Nat
  | [] => 1
  | p :: xs => 1 + jsonSize p.2 + jsonSizeFields xs

end

/-- Python `json.dumps(value, indent=2)`. -/
def jsonDumps2 (j : Json) : String :=
  dumpsVal (jsonSize j) 0 j

/-- JSON insignificant whitespace. -/
def skipWs (l : List Char) : List Char :=
  l.dropWhile (fun c => c = ' ' || c = '\t' || c = '\n' || c = '\r')

/-- Consume a JSON string body after the opening quote. -/
def parseStrBody : Nat → List Char → Option (List Char)
  | 0, _ => none
  | fuel + 1, l =>
      match l with
      | [] => none
      | '"' :: rest => some rest
      | '\\' :: _ :: rest => parseStrBody fuel rest
      | _ :: rest => parseStrBody fuel rest

/-- Consume a literal keyword. -/
def stripLit (lit : String) (l : List Char) : Option (List Char) :=
  if lit.toList.isPrefixOf l then some (l.drop lit.toList.length) else none

/-- Consume a JSON number. -/
def parseNumRest (l : List Char) : Option (List Char) :=
  let l1 := match l with | '-' :: r => r | r => r
  let ds := l1.takeWhile Char.isDigit
  let l2 := l1.dropWhile Char.isDigit
  if ds.isEmpty then none
  else
    let fracOk : Bool × List Char :=
      match l2 with
      | '.' :: r => (¬ (r.takeWhile Char.isDigit).isEmpty, r.dropWhile Char.isDigit)
      | r => (true, r)
    if ¬ fracOk.1 then none
    else
      match fracOk.2 with
      | 'e' :: r | 'E' :: r =>
          let r2 := match r with | '+' :: t => t | '-' :: t => t | t => t
          if (r2.takeWhile Char.isDigit).isEmpty then none
          else some (r2.dropWhile Char.isDigit)
      | r => some r

mutual

/-- Model of the Python `json.loads` grammar as a validating consumer:
returns the unconsumed input after one JSON value, or `none` where the
decoder raises `JSONDecodeError`. Fuel-driven; callers supply input length
plus a constant, which bounds the recursion. -/
def parseJ : Nat → List Char → Option (List Char)
  | 0, _ => none
  | fuel + 1, l =>
      match skipWs l with
      | [] => none
      | c :: rest =>
          if c = '"' then parseStrBody (fuel + 1) rest
          else if c = '\x7b' then
            match skipWs rest with
            | '\x7d' :: r2 => some r2
            | r2 => parseObjItems fuel r2
          else if c = '[' then
            match skipWs rest with
            | ']' :: r2 => some r2
            | r2 => parseArrItems fuel r2
          else if c = 't' then stripLit "rue" rest
          else if c = 'f' then stripLit "alse" rest
          else if c = 'n' then stripLit "ull" rest
          else if c = '-' || c.isDigit then parseNumRest (c :: rest)
          else none

/-- Consume `"key": value` pairs up to the closing brace. -/
def parseObjItems : Nat → List Char → Option (List Char)
  | 0, _ => none
  | fuel + 1, l =>
      match skipWs l with
      | '"' :: r =>
          match parseStrBody (fuel + 1) r with
          | none => none
          | some r2 =>
              match skipWs r2 with
              | ':' :: r3 =>
                  match parseJ fuel r3 with
                  | none => none
                  | some r4 =>
                      match skipWs r4 with
                      | ',' :: r5 => parseObjItems fuel r5
                      | '\x7d' :: r5 => some r5
                      | _ => none
              | _ => none
      | _ => none

/-- Consume array elements up to the closing bracket. -/
def parseArrItems : Nat → List Char → Option (List Char)
  | 0, _ => none
  | fuel + 1, l =>
      match parseJ fuel l with
      | none => none
      | some r =>
          match skipWs r with
          | ',' :: r2 => parseArrItems fuel r2
          | ']' :: r2 => some r2
          | _ => none

end

/-- Python `json.loads(s)` viewed as a success test: one JSON value with
nothing but whitespace around it. -/
def jsonLoadsOk (l : List Char) : Bool :=
  match parseJ (l.length + 4) l with
  | some rest => (skipWs rest).isEmpty
  | none => false

/-- One audit log entry (AuditLogEntry); the hashes are the 16-hex-char
truncated SHA-256 strings the logger computes at the library boundary. -/
structure AuditLogEntry where
  timestamp : String
  file_id : String
  operation : String
  user_id : String
  input_hash : String
  output_hash : String
  rows_before : Nat
  rows_after : Nat
  columns_modified : List String
  transformation_details : List (String × Json)
  compliance_flags : List String

/-- AuditLogEntry.to_dict: the dataclass fields in declaration order. -/
def AuditLogEntry.toDict (e : AuditLogEntry) : Json :=
  .jobj
    [("timestamp", .jstr e.timestamp),
     ("file_id", .jstr e.file_id),
     ("operation", .jstr e.operation),
     ("user_id", .jstr e.user_id),
     ("input_hash", .jstr e.input_hash),
     ("output_hash", .jstr e.output_hash),
     ("rows_before", .jint e.rows_before),
     ("rows_after", .jint e.rows_after),
     ("columns_modified", .jarr (e.columns_modified.map .jstr)),
     ("transformation_details", .jobj e.transformation_details),
     ("compliance_flags", .jarr (e.compliance_flags.map .jstr))]

/-- AuditLogEntry.to_json: `json.dumps(self.to_dict(), indent=2)`. -/
def AuditLogEntry.toJsonStr (e : AuditLogEntry) : String :=
  jsonDumps2 e.toDict

/-- AuditLogger._write_log: append `entry.to_json() + '\n'` to the contents
of `{log_dir}/{file_id}_audit.jsonl` (the file is the string state here). -/
def writeLog (fileContent : String) (e : AuditLogEntry) : String :=
  fileContent ++ e.toJsonStr ++ "\n"

/-- Split on newlines; models Python line iteration over a text file
(each line stripped of its terminator, which `json.loads` tolerates
anyway). -/
def splitLinesAux (cur : List Char) : List Char → List (List Char)
  | [] => [cur.reverse]
  | c :: rest =>
      if c = '\n' then cur.reverse :: splitLinesAux [] rest
      else splitLinesAux (c :: cur) rest

/-- All newline-separated lines of a file body. -/
def splitLines (l : List Char) : List (List Char) :=
  splitLinesAux [] l

/-- Whether a line is blank after `line.strip()`. -/
def blankLine (l : List Char) : Bool :=
  (l.filter (fun c => ¬ c.isWhitespace)).isEmpty

/-- AuditLogger.get_audit_trail body: parse each non-blank line with
`json.loads`; entry reconstruction is modelled as validation, so the result
is the number of entries recovered, or the decoder error. -/
def parseTrailLines : List (List Char) → Except String Nat
  | [] => .ok 0
  | line :: rest =>
      if blankLine line then parseTrailLines rest
      else if jsonLoadsOk line then
        match parseTrailLines rest with
        | .ok n => .ok (n + 1)
        | .error e => .error e
      else .error "json.decoder.JSONDecodeError"

/-- AuditLogger.get_audit_trail: an absent log file yields the empty trail;
otherwise every line is parsed. -/
def getAuditTrail (fileContent : Option String) : Except String Nat :=
  match fileContent with
  | none => .ok 0
  | some content => parseTrailLines (splitLines content.toList)

end Audit

/-
Theorems settling the claims, preceded by helper lemmas.
-/

/-- C4: for every table whose quality/structure/type/business-rule checks
yield exactly one warning-level issue and zero error-level issues, validate
passes under strict=false and fails under strict=true: warnings are promoted
to errors before the pass/fail determination, and passed holds iff the error
list is empty. -/
theorem strict_mode_promotion (df : DataFrame)
    (herr : ((Validator.collectIssues df).filter
      (fun i => i.level = Validator.VLevel.error)).length = 0)
    (hwarn : ((Validator.collectIssues df).filter
      (fun i => i.level = Validator.VLevel.warning)).length = 1) :
    (Validator.validate false df).passed = true ∧
    (Validator.validate true df).passed = false := by
  constructor
  · simp [Validator.validate, herr]
  · simp [Validator.validate, herr, hwarn]

/-- C4 witness: a two-row single-column constant table produces exactly one
warning (constant column) and no errors; it passes non-strict validation and
fails strict validation. -/
theorem strict_mode_promotion_witness :
    (((Validator.collectIssues ⟨[⟨"a", .object, [.str "x", .str "x"]⟩]⟩).filter
        (fun i => i.level = Validator.VLevel.error)).length = 0 ∧
      ((Validator.collectIssues ⟨[⟨"a", .object, [.str "x", .str "x"]⟩]⟩).filter
        (fun i => i.level = Validator.VLevel.warning)).length = 1) ∧
    (Validator.validate false ⟨[⟨"a", .object, [.str "x", .str "x"]⟩]⟩).passed = true ∧
    (Validator.validate true ⟨[⟨"a", .object, [.str "x", .str "x"]⟩]⟩).passed = false :=
  ⟨⟨by decide, by decide⟩,
    strict_mode_promotion ⟨[⟨"a", .object, [.str "x", .str "x"]⟩]⟩
      (by decide) (by decide)⟩

/-- C5: for every resolved engagement score, days-since-purchase and NPS,
the engagement level is champion if score ≥ 90 and NPS ≥ 9; else active if
score ≥ 80; else moderate if score ≥ 60; else at_risk if score ≥ 40 or
days-since-purchase < 60; else dormant; an absent score yields moderate. -/
theorem engagement_level_classification :
    (∀ (s : ℚ) (d : Int) (n : ℚ),
      Customer.calcEngagementLevel (some s) (some d) (some n) =
        (if s ≥ 90 ∧ n ≥ 9 then "champion"
         else if s ≥ 80 then "active"
         else if s ≥ 60 then "moderate"
         else if s ≥ 40 ∨ d < 60 then "at_risk"
         else "dormant")) ∧
    (∀ (d : Option Int) (n : Option ℚ),
      Customer.calcEngagementLevel none d n = "moderate") := by
  constructor
  · intro s d n
    rfl
  · intro d n
    rfl

/-- C1: the audit-log round trip fails on the code. `to_json` pretty-prints
with `indent=2`, so one logged entry spans 13 lines of the `.jsonl` file
(14 newline-separated segments with the trailing one), and the line-based
reader in `get_audit_trail` hits a `JSONDecodeError` on the first line
`\x7b` instead of returning the logged entries; only the no-log-file case
returns the empty trail as claimed. -/
theorem audit_log_round_trip_fails :
    (Audit.splitLines (Audit.writeLog ""
        ⟨"2024-01-01T00:00:00", "f1", "clean", "system", "0123abcd", "4567efgh",
          10, 9, [], [], []⟩).toList).length = 14 ∧
    Audit.getAuditTrail (some (Audit.writeLog ""
        ⟨"2024-01-01T00:00:00", "f1", "clean", "system", "0123abcd", "4567efgh",
          10, 9, [], [], []⟩)) = .error "json.decoder.JSONDecodeError" ∧
    Audit.getAuditTrail none = .ok 0 := by
  refine ⟨by decide, by rfl, rfl⟩

/-- C10 counterexample: an upload whose byte length exceeds the configured
limit but whose extension fails the allow-list check is rejected with 400,
not 413 — the extension check precedes the size check — so the claim as
stated (every oversized upload gets 413) is false. -/
theorem upload_oversize_bad_extension_400 :
    ([0].length > 0 * 1024 * 1024) ∧
    Upload.uploadFile ⟨[".csv"], 0⟩ [] "id" "x.txt" [0] =
      (.error (400, "File type .txt not supported"), []) := by
  refine ⟨by decide, by rfl⟩

/-- C10 (amended): for every upload whose extension passes the allow-list
check and whose byte length exceeds max_file_size_mb × 1024 × 1024, the
endpoint rejects with HTTP 413 and no file is written — the size check
occurs before the write, so the directory is unchanged. -/
theorem upload_size_enforcement (settings : Upload.UploadSettings)
    (dir : Upload.Dir) (fileId filename : String) (content : List Nat)
    (hext : settings.allowedExtensions.contains (strLower (Upload.pySuffix filename)) = true)
    (hsize : content.length > settings.maxFileSizeMB * 1024 * 1024) :
    Upload.uploadFile settings dir fileId filename content =
      (.error (413, s!"File too large. Maximum size: {settings.maxFileSizeMB}MB"), dir) := by
  simp only [Upload.uploadFile]
  rw [if_neg (by simp [hext]; exact List.elem_iff.mp hext), if_pos hsize]

/-- C10 witness: a 1-byte upload against a 0 MB limit with an allowed
extension is rejected with 413 and the directory stays empty. -/
theorem upload_size_enforcement_witness :
    ((⟨[".csv"], 0⟩ : Upload.UploadSettings).allowedExtensions.contains
        (strLower (Upload.pySuffix "a.csv")) = true ∧
      ([7].length > (⟨[".csv"], 0⟩ : Upload.UploadSettings).maxFileSizeMB * 1024 * 1024) ∧
    Upload.uploadFile ⟨[".csv"], 0⟩ [] "id" "a.csv" [7] =
      (.error (413, "File too large. Maximum size: 0MB"), [])) :=
  ⟨by decide, by decide,
    upload_size_enforcement ⟨[".csv"], 0⟩ [] "id" "a.csv" [7] (by decide) (by decide)⟩

theorem dropDupAux_mem [DecidableEq α] (seen : List α) (l : List α) :
    ∀ x ∈ dropDupAux seen l, x ∈ l ∧ x ∉ seen := by
  induction l generalizing seen with
  | nil => intro x hx; simp [dropDupAux] at hx
  | cons y ys ih =>
      intro x hx
      by_cases hy : y ∈ seen
      · simp [dropDupAux, hy] at hx
        rcases ih seen x hx with ⟨h1, h2⟩
        exact ⟨List.mem_cons_of_mem _ h1, h2⟩
      · simp [dropDupAux, hy] at hx
        rcases hx with rfl | hx
        · exact ⟨List.mem_cons_self _ _, hy⟩
        · rcases ih (y :: seen) x hx with ⟨h1, h2⟩
          exact ⟨List.mem_cons_of_mem _ h1, fun hs => h2 (List.mem_cons_of_mem _ hs)⟩

theorem dropDupAux_nodup [DecidableEq α] (seen : List α) (l : List α) :
    (dropDupAux seen l).Nodup := by
  induction l generalizing seen with
  | nil => simp [dropDupAux]
  | cons y ys ih =>
      by_cases hy : y ∈ seen
      · simpa [dropDupAux, hy] using ih seen
      · simp only [dropDupAux, hy, if_false]
        refine List.nodup_cons.mpr ⟨fun hmem => ?_, ih (y :: seen)⟩
        exact (dropDupAux_mem (y :: seen) ys y hmem).2 (List.mem_cons_self _ _)

theorem dropDupAux_eq_self [DecidableEq α] (seen : List α) (l : List α)
    (hdisj : ∀ x ∈ l, x ∉ seen) (hnd : l.Nodup) : dropDupAux seen l = l := by
  induction l generalizing seen with
  | nil => rfl
  | cons y ys ih =>
      have hy : y ∉ seen := hdisj y (List.mem_cons_self _ _)
      simp only [dropDupAux, hy, if_false]
      rw [ih (y :: seen) ?_ (List.nodup_cons.mp hnd).2]
      intro x hx
      simp only [List.mem_cons, not_or]
      exact ⟨fun e => (List.nodup_cons.mp hnd).1 (e ▸ hx), hdisj x (List.mem_cons_of_mem _ hx)⟩

theorem dropDuplicates_nodup [DecidableEq α] (l : List α) :
    (dropDuplicates l).Nodup :=
  dropDupAux_nodup [] l

theorem dropDuplicates_sub [DecidableEq α] (l : List α) :
    ∀ x ∈ dropDuplicates l, x ∈ l :=
  fun x hx => (dropDupAux_mem [] l x hx).1

theorem dropDuplicates_of_nodup [DecidableEq α] (l : List α) (h : l.Nodup) :
    dropDuplicates l = l :=
  dropDupAux_eq_self [] l (by simp) h

theorem getD_range_map (r : List α) (d : α) :
    (List.range r.length).map (fun j => r.getD j d) = r := by
  induction r with
  | nil => rfl
  | cons x xs ih =>
      rw [List.length_cons, List.range_succ_eq_map, List.map_cons, List.map_map]
      have h2 : List.map ((fun j => (x :: xs).getD j d) ∘ Nat.succ) (List.range xs.length)
          = List.map (fun j => xs.getD j d) (List.range xs.length) :=
        List.map_congr_left (fun i _ => by simp)
      rw [show (x :: xs).getD 0 d = x from rfl, h2, ih]

theorem getD_map_lt (l : List β) (f : β → α) (i : Nat) (d : α) (d2 : β)
    (h : i < l.length) : (l.map f).getD i d = f (l.getD i d2) := by
  rw [List.getD_eq_getElem _ _ (by simpa using h), List.getD_eq_getElem _ _ h,
    List.getElem_map]

theorem enum_map_fst_apply (l : List β) (f : Nat → α) :
    l.enum.map (fun p => f p.1) = (List.range l.length).map f := by
  have h1 : l.enum.map (fun p => f p.1) = (l.enum.map Prod.fst).map f := by
    rw [List.map_map]; rfl
  rw [h1, List.enum_map_fst]

theorem row_mem_rowsList_length (df : DataFrame) :
    ∀ r ∈ df.rowsList, r.length = df.cols.length := by
  intro r hr
  simp only [DataFrame.rowsList, List.mem_map] at hr
  rcases hr with ⟨i, _, rfl⟩
  simp [DataFrame.row]

theorem nRows_rebuild (df : DataFrame) (rs : List (List Value))
    (hc : df.cols ≠ []) : (rebuildFromRows df rs).nRows = rs.length := by
  rcases df with ⟨cols⟩
  cases cols with
  | nil => exact absurd rfl hc
  | cons c cs => simp [rebuildFromRows, DataFrame.nRows, List.enum_cons]

theorem row_rebuild (df : DataFrame) (rs : List (List Value)) (i : Nat)
    (hi : i < rs.length) (hlen : ∀ r ∈ rs, r.length = df.cols.length) :
    (rebuildFromRows df rs).row i = rs.getD i [] := by
  have hmem : rs.getD i [] ∈ rs := by
    rw [List.getD_eq_getElem _ _ hi]; exact List.getElem_mem _
  have hL : (rs.getD i []).length = df.cols.length := hlen _ hmem
  show (df.cols.enum.map (fun p : Nat × Col =>
      { p.2 with values := rs.map (fun r => r.getD p.1 Value.null) })).map
      (fun c : Col => c.values.getD i Value.null) = rs.getD i []
  rw [List.map_map]
  have e1 : List.map ((fun c : Col => c.values.getD i Value.null) ∘
      (fun p : Nat × Col => { p.2 with values := rs.map (fun r => r.getD p.1 Value.null) }))
      df.cols.enum =
      List.map (fun p : Nat × Col => (rs.getD i []).getD p.1 Value.null) df.cols.enum :=
    List.map_congr_left (fun p _ =>
      getD_map_lt rs (fun r => r.getD p.1 Value.null) i Value.null [] hi)
  rw [e1, enum_map_fst_apply df.cols (fun j => (rs.getD i []).getD j Value.null), ← hL]
  exact getD_range_map _ _

theorem rowsList_rebuild (df : DataFrame) (rs : List (List Value))
    (hlen : ∀ r ∈ rs, r.length = df.cols.length) (hc : df.cols ≠ []) :
    (rebuildFromRows df rs).rowsList = rs := by
  simp only [DataFrame.rowsList, nRows_rebuild df rs hc]
  rw [List.map_congr_left (fun i hi => row_rebuild df rs i (List.mem_range.mp hi) hlen)]
  exact getD_range_map rs []

theorem removeDuplicatesStep_fst_idem (df : DataFrame)
    (s1 s2 : Cleaner.CleanState) :
    Cleaner.removeDuplicatesStep (Cleaner.removeDuplicatesStep df s1).1 s2 =
      ((Cleaner.removeDuplicatesStep df s1).1, s2) := by
  by_cases h : df.rowsList.length - (dropDuplicates df.rowsList).length > 0
  · have hc : df.cols ≠ [] := by
      intro hnil
      rcases df with ⟨cols⟩
      subst hnil
      simp [DataFrame.rowsList, DataFrame.nRows] at h
    have hfst : (Cleaner.removeDuplicatesStep df s1).1 =
        rebuildFromRows df (dropDuplicates df.rowsList) := by
      simp [Cleaner.removeDuplicatesStep, h]
    rw [hfst]
    have hrows : (rebuildFromRows df (dropDuplicates df.rowsList)).rowsList =
        dropDuplicates df.rowsList :=
      rowsList_rebuild df _
        (fun r hr => row_mem_rowsList_length df r (dropDuplicates_sub _ r hr)) hc
    have hself : dropDuplicates (dropDuplicates df.rowsList) =
        dropDuplicates df.rowsList :=
      dropDuplicates_of_nodup _ (dropDuplicates_nodup _)
    simp [Cleaner.removeDuplicatesStep, hrows, hself]
  · have hfst : (Cleaner.removeDuplicatesStep df s1).1 = df := by
      simp [Cleaner.removeDuplicatesStep, h]
    rw [hfst]
    simp [Cleaner.removeDuplicatesStep, h]

theorem getD_set_of_ne (l : List α) (i j : Nat) (v d : α) (h : i ≠ j) :
    (l.set i v).getD j d = l.getD j d := by
  induction l generalizing i j with
  | nil => simp
  | cons x xs ih =>
      cases i with
      | zero =>
          cases j with
          | zero => exact absurd rfl h
          | succ j => simp
      | succ i =>
          cases j with
          | zero => simp
          | succ j =>
              simp only [List.set_cons_succ, List.getD_cons_succ]
              exact ih i j (fun e => h (by rw [e]))

/-- C7: in aggressive mode, outlier capping per numeric column uses Tukey
fences with IQR multiplier 1.5: on the column [1,2,3,4,5,100], Q1 = 2.25,
Q3 = 4.75, IQR = 2.5, upper bound = 8.5, the value 100 is clamped to 8.5,
and the report records exactly 1 outlier capped in that column. -/
theorem outlier_capping_tukey :
    Cleaner.quantileQ [1, 2, 3, 4, 5, 100] (1/4) = some (9/4) ∧
    Cleaner.quantileQ [1, 2, 3, 4, 5, 100] (3/4) = some (19/4) ∧
    ((19 : ℚ)/4) - 9/4 = 5/2 ∧
    ((19 : ℚ)/4) + (3/2) * (5/2) = 17/2 ∧
    Cleaner.clean true ⟨[⟨"x", .numeric,
        [.num 1, .num 2, .num 3, .num 4, .num 5, .num 100]⟩]⟩ =
      (⟨[⟨"x", .numeric, [.num 1, .num 2, .num 3, .num 4, .num 5, .num (17/2)]⟩]⟩,
        ⟨["Capped 1 outliers in 'x'"], 6, 6, ["x"], 0, 1⟩) := by
  refine ⟨by decide, by decide, by norm_num, by norm_num, by decide⟩

/-- C8: duplicate removal is idempotent on every table — the second
application returns the frame unchanged and logs nothing — and the 10-row
table whose rows 3 and 7 duplicate row 1 cleans to 8 rows with the
operation "Removed 2 duplicate rows" recorded. -/
theorem dedup_idempotent :
    (∀ (df : DataFrame) (s1 s2 : Cleaner.CleanState),
      Cleaner.removeDuplicatesStep (Cleaner.removeDuplicatesStep df s1).1 s2 =
        ((Cleaner.removeDuplicatesStep df s1).1, s2)) ∧
    Cleaner.clean false ⟨[⟨"v", .numeric,
        [.num 1, .num 2, .num 1, .num 4, .num 5, .num 6, .num 1, .num 8,
          .num 9, .num 10]⟩]⟩ =
      (⟨[⟨"v", .numeric, [.num 1, .num 2, .num 4, .num 5, .num 6, .num 8,
          .num 9, .num 10]⟩]⟩,
        ⟨["Removed 2 duplicate rows"], 10, 8, [], 2, 0⟩) :=
  ⟨removeDuplicatesStep_fst_idem, by decide⟩

/-- C9: clean operates on a private copy — for every heap, every valid
caller reference and either aggressiveness, the caller's frame object is
unchanged after the call. -/
theorem clean_frame_condition (a : Bool) (h0 : Cleaner.Heap) (r : Nat)
    (hr : r < h0.length) :
    (Cleaner.cleanOnHeap a h0 r).1.getD r ⟨[]⟩ = h0.getD r ⟨[]⟩ := by
  have hne : h0.length ≠ r := fun e => absurd (e ▸ hr) (lt_irrefl _)
  simp only [Cleaner.cleanOnHeap]
  rw [getD_set_of_ne _ _ _ _ _ hne, getD_set_of_ne _ _ _ _ _ hne,
    getD_set_of_ne _ _ _ _ _ hne, getD_set_of_ne _ _ _ _ _ hne,
    getD_set_of_ne _ _ _ _ _ hne, getD_set_of_ne _ _ _ _ _ hne,
    getD_set_of_ne _ _ _ _ _ hne, List.getD_append _ _ _ _ hr]

/-- C9 witness: the frame condition evaluated on a one-object heap. -/
theorem clean_frame_condition_witness :
    0 < ([⟨[⟨"a", Dtype.object, [Value.str "a", Value.str "a"]⟩]⟩] : Cleaner.Heap).length ∧
    (Cleaner.cleanOnHeap false [⟨[⟨"a", Dtype.object, [Value.str "a", Value.str "a"]⟩]⟩] 0).1.getD
        0 ⟨[]⟩ =
      ([⟨[⟨"a", Dtype.object, [Value.str "a", Value.str "a"]⟩]⟩] : Cleaner.Heap).getD 0 ⟨[]⟩ :=
  ⟨by decide,
    clean_frame_condition false [⟨[⟨"a", Dtype.object, [Value.str "a", Value.str "a"]⟩]⟩] 0
      (by decide)⟩

/-- C2: for every input table, whatever its contents, profile_dataset
returns a profile whose overall_quality_score is exactly the constant 85.0. -/
theorem profile_dataset_constant_score :
    ∀ df : DataFrame, (Profiler.profileDataset df).overallQualityScore = 85 :=
  fun _ => rfl

/-- C3 counterexample: the claim says every value ≥ 1e12 is rejected, but
the source tests `amount > 1e12` strictly, so the value 1e12 itself — input
string "1000000000000" — is accepted as valid. -/
theorem validate_currency_accepts_1e12 :
    Finance.validateCurrency (some "1000000000000") = (true, some 1000000000000) := by
  decide

/-- C3 (amended): validate_currency treats missing input as invalid; for a
string input it strips the `$`/`€`/`£` symbols and thousands separators and
parses the remainder as a number, rejecting unparsable input, any negative
value and any value strictly greater than 1e12 (1e12 itself is accepted),
and for every accepted value returns (valid, amount rounded to 2 decimals). -/
theorem validate_currency_spec :
    Finance.validateCurrency none = (false, none) ∧
    (∀ s : String, pythonFloat (Finance.stripCurrency s) = none →
      Finance.validateCurrency (some s) = (false, none)) ∧
    (∀ (s : String) (q : ℚ), pythonFloat (Finance.stripCurrency s) = some q →
      q < 0 → Finance.validateCurrency (some s) = (false, none)) ∧
    (∀ (s : String) (q : ℚ), pythonFloat (Finance.stripCurrency s) = some q →
      1000000000000 < q → Finance.validateCurrency (some s) = (false, none)) ∧
    (∀ (s : String) (q : ℚ), pythonFloat (Finance.stripCurrency s) = some q →
      0 ≤ q → q ≤ 1000000000000 →
      Finance.validateCurrency (some s) = (true, some (Finance.pyRound2 q))) := by
  refine ⟨rfl, ?_, ?_, ?_, ?_⟩
  · intro s h
    simp [Finance.validateCurrency, h]
  · intro s q h hneg
    simp [Finance.validateCurrency, h, hneg]
  · intro s q h hbig
    have : ¬ q < 0 := by linarith
    simp [Finance.validateCurrency, h, this, hbig]
  · intro s q h h0 h1
    have h2 : ¬ q < 0 := not_lt.mpr h0
    have h3 : ¬ q > 1000000000000 := not_lt.mpr h1
    simp [Finance.validateCurrency, h, h2, h3]

/-- C3 witness: the rejection and acceptance branches of
`validate_currency_spec` at concrete inputs. -/
theorem validate_currency_spec_witness :
    Finance.validateCurrency (some "-5") = (false, none) ∧
    Finance.validateCurrency (some "$1,234.56") = (true, some (Finance.pyRound2 (30864/25))) := by
  constructor
  · exact validate_currency_spec.2.2.1 "-5" (-5) (by decide) (by norm_num)
  · exact validate_currency_spec.2.2.2.2 "$1,234.56" (30864/25) (by decide)
      (by norm_num) (by norm_num)

/-- C6: on a row in which no engagement_score/health_score column resolves
to a numeric value — including one where the column holds 0, which the
profile-building step turns into `None` — `profile_customers` does not
return a profile list but fails during insight generation, where the stored
`None` is compared against 90. -/
theorem insight_generation_not_total :
    (∀ today : Int,
      Customer.profileCustomers today [[("customer_id", Value.str "c1")]] =
        .error "TypeError: comparison between NoneType and int") ∧
    (∀ today : Int,
      Customer.profileCustomers today [[("engagement_score", Value.num 0)]] =
        .error "TypeError: comparison between NoneType and int") := by
  exact ⟨fun _ => rfl, fun _ => rfl⟩

end Refyne
